import Mathlib

/-!
Verification development for the Sage chat service
(`app/chat_service.py`, `app/auth.py`, `app/models.py`, `app/main.py`).

The Python code is shallowly embedded: pure functions become Lean
functions, the random draws of the fallback responder become explicit
parameters, the outcome of the external text-generation providers
becomes an `Option String` parameter, and the SQLite store becomes an
explicit record of row lists.  Machine-level details (HTTP, sockets,
real clocks) are represented by explicit `Nat` time parameters.
-/

/- ## ASCII string utilities modelling the Python primitives used -/

/-- Model of CPython `str.lower` restricted to ASCII case folding.
All keyword data in the program is ASCII, so on the program's data this
agrees with CPython. -/
def pyLowerChar (c : Char) : Char :=
  if 65 ≤ c.toNat && c.toNat ≤ 90 then Char.ofNat (c.toNat + 32) else c

/-- `s.lower()` -/
def pyLower (s : String) : String := String.mk (s.toList.map pyLowerChar)

/-- Whether `needle` occurs at the head of `hay` (over char lists). -/
def listStartsWith : List Char → List Char → Bool
  | [], _ => true
  | _ :: _, [] => false
  | a :: as, b :: bs => a == b && listStartsWith as bs

/-- Whether `needle` occurs contiguously anywhere in `hay`. -/
def listOccursIn (needle : List Char) : List Char → Bool
  | [] => needle.isEmpty
  | b :: bs => listStartsWith needle (b :: bs) || listOccursIn needle bs

/-- Model of the Python substring test `needle in hay`. -/
def strContains (hay needle : String) : Bool :=
  listOccursIn needle.toList hay.toList

/-- `any(kw in msg for kw in kws)` -/
def kwAny (msg : String) (kws : List String) : Bool :=
  kws.any (fun kw => strContains msg kw)

/-- Model of Python `str.strip()` (ASCII whitespace). -/
def pyStrip (s : String) : String :=
  String.mk (((s.toList.dropWhile Char.isWhitespace).reverse.dropWhile Char.isWhitespace).reverse)

/-- Accumulating splitter behind `pyWords`: `acc` holds the reversed
characters of the word in progress. -/
def pyWordsAux : List Char → List Char → List String
  | acc, [] => if acc.isEmpty then [] else [String.mk acc.reverse]
  | acc, c :: cs =>
    if c.isWhitespace then
      if acc.isEmpty then pyWordsAux [] cs
      else String.mk acc.reverse :: pyWordsAux [] cs
    else pyWordsAux (c :: acc) cs

/-- Model of Python `str.split()` with no argument: split on whitespace
runs and drop empty pieces. -/
def pyWords (s : String) : List String := pyWordsAux [] s.toList

/-- Model of `re.split(r"[.!?]", s)[0]`: the text before the first
sentence delimiter (the whole string when no delimiter occurs). -/
def firstClause (s : String) : String :=
  String.mk (s.toList.takeWhile (fun c => !(c == '.' || c == '!' || c == '?')))

/-- Model of `len(s.encode("utf-8"))`. -/
def pyUtf8Len (s : String) : Nat :=
  s.toList.foldl (fun n c => n + c.utf8Size) 0

/-- Model of a Python dict lookup `d.get(k, default)` over an
insertion-ordered association list with distinct keys. -/
def dictGet {α : Type} (m : List (String × α)) (k : String) (d : α) : α :=
  match m with
  | [] => d
  | p :: rest => if p.1 = k then p.2 else dictGet rest k d

/- ## chat_service.py : static data -/

/-- `CRISIS_KEYWORDS` from `chat_service.py`. -/
def CRISIS_KEYWORDS : List String :=
  ["suicide", "suicidal", "kill myself", "end my life", "want to die",
   "self-harm", "hurt myself"]

/-- `CRISIS_MESSAGE` from `chat_service.py`. -/
def CRISIS_MESSAGE : String :=
  "I\x27m concerned about what you\x27ve shared. If you\x27re in crisis, please reach out immediately. " ++
  "India helplines (24/7, toll-free): " ++
  "Tele-MANAS: 14416 or 1800-89-14416 | " ++
  "Hello! Lifeline: 1800-121-3667 | " ++
  "KIRAN: 1800-599-0019 | " ++
  "Vandrevala Foundation: 1860-2662-345 / 1800-2333-330"

/-- The `"depression"` pool of `EMPATHETIC_RESPONSES`. -/
def DEPRESSION_POOL : List String :=
  ["I hear you, and what you\x27re feeling is valid. Depression can make everything feel heavy. " ++
   "Remember, you don\x27t have to face this alone. Have you considered reaching out to a trusted friend or professional?",
   "That sounds really difficult. It takes courage to open up about what you\x27re going through. " ++
   "Small steps matter—even getting through today is an achievement. Be gentle with yourself.",
   "Thank you for sharing. Depression can feel isolating, but many people understand what you\x27re experiencing. " ++
   "Consider talking to a counselor or therapist who can provide professional support.",
   "What you\x27re describing is hard to carry. You matter, and your feelings are real. " ++
   "Sometimes the bravest thing is to ask for help. Would you feel able to reach out to someone today?",
   "I\x27m glad you\x27re here. It\x27s okay to not be okay. " ++
   "Many people find that small routines—getting outside, a short walk, or a phone call—can help a little. What feels possible for you right now?"]

/-- The `"anxiety"` pool of `EMPATHETIC_RESPONSES`. -/
def ANXIETY_POOL : List String :=
  ["I understand how overwhelming anxiety can feel. Your feelings are valid. " ++
   "Have you tried grounding techniques like the 5-4-3-2-1 method? Notice 5 things you see, 4 you hear, 3 you touch, 2 you smell, 1 you taste.",
   "Anxiety can make everything feel urgent. Remember to breathe—slow, deep breaths can help calm your nervous system. " ++
   "You\x27re not alone in this. Many find relief through therapy, mindfulness, or talking to someone they trust.",
   "What you\x27re experiencing is real and challenging. It\x27s okay to take things one moment at a time. " ++
   "Would it help to focus on something simple right now, like your breathing?",
   "I hear you. When anxiety spikes, it can feel like too much. " ++
   "Try naming what you see around you or feeling your feet on the ground. You\x27re safe in this moment."]

/-- The `"stress"` pool of `EMPATHETIC_RESPONSES`. -/
def STRESS_POOL : List String :=
  ["Stress can feel overwhelming when it builds up. It\x27s important to take breaks when you can. " ++
   "Going for a short walk, listening to music, or doing something you enjoy can help reset your mind.",
   "You\x27re carrying a lot right now. Remember that it\x27s okay to ask for help or say no to things that feel like too much. " ++
   "Prioritizing your wellbeing isn\x27t selfish—it\x27s necessary.",
   "Stress takes a real toll. What\x27s one small thing you could do today to give yourself a moment of rest? " ++
   "Even 5 minutes of quiet can make a difference.",
   "It sounds like a lot is on your plate. You don\x27t have to do everything at once. " ++
   "What\x27s one thing you could set aside or delegate, even just for today?"]

/-- The `"loneliness"` pool of `EMPATHETIC_RESPONSES`. -/
def LONELINESS_POOL : List String :=
  ["Feeling lonely is difficult, and it\x27s more common than many people realize. " ++
   "Even small connections—a text, a call, or joining an online community—can help.",
   "Loneliness can make us feel invisible. But you matter. " ++
   "Consider reaching out to someone today, even if it feels hard. They might be glad you did.",
   "You\x27re not alone in feeling alone. Many people struggle with this. " ++
   "Support groups, hobby clubs, or volunteering can be ways to build meaningful connections.",
   "Connection doesn\x27t have to be big. A short message, a wave to a neighbour, or a walk in a park can remind us we\x27re part of the world. " ++
   "Is there one person or place you could reach out to this week?"]

/-- The `"sleep"` pool of `EMPATHETIC_RESPONSES`. -/
def SLEEP_POOL : List String :=
  ["Sleep and mood are closely linked. Struggling to sleep can make everything feel harder. " ++
   "A consistent bedtime, limiting screens before bed, and a calm routine can help. If it persists, a doctor can help rule out sleep issues.",
   "Not sleeping well is exhausting and can affect how you feel during the day. " ++
   "Try to keep a regular schedule and avoid caffeine late in the day. You\x27re not alone in this."]

/-- The `"anger"` pool of `EMPATHETIC_RESPONSES`. -/
def ANGER_POOL : List String :=
  ["Anger can be a way our mind and body respond to stress or hurt. It\x27s valid to feel it. " ++
   "Taking a pause, stepping away, or writing it out can sometimes help before we respond.",
   "Feeling angry doesn\x27t make you a bad person. It often means something matters to you or something feels unfair. " ++
   "If you can, give yourself a moment before reacting. You deserve that space."]

/-- The `"general"` pool of `EMPATHETIC_RESPONSES`. -/
def GENERAL_POOL : List String :=
  ["I\x27m here to listen. Whatever you\x27re going through, your feelings matter. " ++
   "Would you like to tell me more about what\x27s on your mind?",
   "Thank you for reaching out. It takes strength to acknowledge when you\x27re struggling. " ++
   "Remember, seeking support is a sign of courage, not weakness.",
   "I hear you. Mental health challenges are real and valid. " ++
   "If things feel overwhelming, please consider speaking with a mental health professional—they\x27re trained to help.",
   "You\x27re not alone. Many people have walked similar paths and found their way through. " ++
   "What would feel helpful to talk about right now?",
   "Whatever you\x27re feeling, it\x27s okay to feel it. " ++
   "Take your time. I\x27m here when you want to share more."]

/-- `EMPATHETIC_RESPONSES` from `chat_service.py`, as an
insertion-ordered association list. -/
def EMPATHETIC_RESPONSES : List (String × List String) :=
  [("depression", DEPRESSION_POOL), ("anxiety", ANXIETY_POOL),
   ("stress", STRESS_POOL), ("loneliness", LONELINESS_POOL),
   ("sleep", SLEEP_POOL), ("anger", ANGER_POOL), ("general", GENERAL_POOL)]

/-- `REFLECTION_PREFIXES` from `chat_service.py`.  Each Python template
holds a single `\x7b\x7d` placeholder; it is embedded as the pair of the
text before and after the placeholder, and `str.format` becomes
concatenation around the argument. -/
def REFLECTION_WRAPPERS : List (String × String) :=
  [("You shared that ", " — "), ("It sounds like ", " — "), ("Hearing that ", " — ")]

/-- `suggestions_map` from `_fallback_response`. -/
def SUGGESTIONS_MAP : List (String × List String) :=
  [("depression", ["Talk about what helps", "I want to try therapy", "Coping strategies"]),
   ("anxiety", ["Breathing exercises", "Grounding techniques", "When to see a professional"]),
   ("stress", ["Stress management tips", "Setting boundaries", "Self-care ideas"]),
   ("loneliness", ["Building connections", "Online communities", "Volunteering"]),
   ("sleep", ["Sleep routine tips", "When to see a doctor", "Relaxation before bed"]),
   ("anger", ["Managing anger", "Safe ways to express", "When to get support"]),
   ("general", ["Tell me more", "I need resources", "Crisis support"])]

/- ## chat_service.py : functions -/

/-- `_detect_topic` from `chat_service.py`: ordered keyword cascade. -/
def detect_topic (message : String) : String :=
  let m := pyLower message
  if kwAny m ["depress", "sad", "hopeless", "empty", "worthless", "down", "low"] then "depression"
  else if kwAny m ["anxious", "anxiety", "panic", "worry", "worried", "nervous", "scared"] then "anxiety"
  else if kwAny m ["stress", "stressed", "overwhelm", "pressure", "busy", "tired"] then "stress"
  else if kwAny m ["lonely", "alone", "isolat", "disconnect", "no one", "friend"] then "loneliness"
  else if kwAny m ["sleep", "insomnia", "tired", "exhausted", "can\x27t sleep"] then "sleep"
  else if kwAny m ["angry", "anger", "frustrat", "irritat", "mad"] then "anger"
  else "general"

/-- The ordered topic table of the specification: topics in the order
depression, anxiety, stress, loneliness, sleep, anger, each with its
keyword list. -/
def TOPIC_TABLE : List (String × List String) :=
  [("depression", ["depress", "sad", "hopeless", "empty", "worthless", "down", "low"]),
   ("anxiety", ["anxious", "anxiety", "panic", "worry", "worried", "nervous", "scared"]),
   ("stress", ["stress", "stressed", "overwhelm", "pressure", "busy", "tired"]),
   ("loneliness", ["lonely", "alone", "isolat", "disconnect", "no one", "friend"]),
   ("sleep", ["sleep", "insomnia", "tired", "exhausted", "can\x27t sleep"]),
   ("anger", ["angry", "anger", "frustrat", "irritat", "mad"])]

/-- First topic of the table whose keyword list matches; `"general"`
when none does. -/
def findTopic (m : String) : List (String × List String) → String
  | [] => "general"
  | (t, kws) :: rest => if kwAny m kws then t else findTopic m rest

/-- Specification-side restatement of topic classification, written
from the spec's words ("ordered case-insensitive keyword matching,
first matching topic wins, default general"), to be compared with
`detect_topic`. -/
def detect_topic_spec (message : String) : String :=
  findTopic (pyLower message) TOPIC_TABLE

/-- `_short_reflection` from `chat_service.py` (with the default
`max_words = 8` inlined as in the only call site). -/
def short_reflection (message : String) : Option String :=
  let stripped := pyStrip message
  if stripped.length < 10 then none
  else
    let first := pyStrip (firstClause stripped)
    let words := (pyWords first).take 8
    if words.length < 2 then none
    else some (pyLower (String.intercalate " " words))

/-- `_is_crisis` from `chat_service.py`. -/
def is_crisis (message : String) : Bool :=
  kwAny (pyLower message) CRISIS_KEYWORDS

/-- The random draws consumed by `_fallback_response`: the index drawn
by `random.choice` over the response pool (reduced modulo the pool
size), the outcome of the test `random.random() < 0.5`, and the index
drawn by `random.choice` over `REFLECTION_PREFIXES`. -/
structure FallbackRand where
  respIdx : Nat
  reflectCoin : Bool
  prefIdx : Nat
  deriving DecidableEq, Repr

/-- `_fallback_response` from `chat_service.py`, with the random draws
passed explicitly. -/
def fallback_response (r : FallbackRand) (message : String) : String × List String :=
  let topic := detect_topic message
  let responses := dictGet EMPATHETIC_RESPONSES topic GENERAL_POOL
  let base := responses.getD (r.respIdx % responses.length) ""
  let response :=
    match short_reflection message with
    | some refl0 =>
      if !refl0.isEmpty && r.reflectCoin then
        let w := REFLECTION_WRAPPERS.getD (r.prefIdx % REFLECTION_WRAPPERS.length) ("", "")
        w.1 ++ refl0 ++ w.2 ++ base
      else base
    | none => base
  (response, dictGet SUGGESTIONS_MAP topic ["Tell me more", "I need resources", "Crisis support"])

/-- `get_chat_response` from `chat_service.py`.  The outcome of
`get_ai_response` (an external network call: OpenAI, then Groq) is an
explicit parameter `ai`; `none` covers both missing credentials and
provider failure, and the Python truthiness test `if ai_response:`
additionally sends an empty provider string to the fallback. -/
def get_chat_response (ai : Option String) (r : FallbackRand) (message : String) :
    String × List String :=
  if is_crisis message then
    (CRISIS_MESSAGE,
     ["Call Tele-MANAS 14416", "Call KIRAN 1800-599-0019", "Reach out to someone you trust"])
  else
    match ai with
    | some s =>
      if s.isEmpty then fallback_response r message
      else (s, ["Tell me more", "What coping strategies help?", "I need professional help"])
    | none => fallback_response r message

/- ## auth.py -/

/-- `SECRET_KEY` from `auth.py`. -/
def SECRET_KEY : String := "sage-secret-key-change-in-production"

/-- `ACCESS_TOKEN_EXPIRE_DAYS` from `auth.py`. -/
def ACCESS_TOKEN_EXPIRE_DAYS : Nat := 7

/-- Seconds in a day, used to express the 7-day expiry on the `Nat`
clock of the model. -/
def SECONDS_PER_DAY : Nat := 86400

/-- A JWT as its abstract content: the `sub` claim (absent in tokens
minted without one), the `exp` claim (seconds on the model clock), and
the signature string.  The base64/JSON wire format of the external
`jose` library is not modelled; a string that fails to parse at all is
represented as a token whose signature matches no key. -/
structure JwtToken where
  sub : Option String
  exp : Nat
  sig : String
  deriving DecidableEq, Repr

/-- Model of the HMAC signature the `jose` library computes over the
payload with a key: an injective tagging of key and payload fields.
Only equality and inequality of signatures matter to the theorems. -/
def mkSig (key : String) (sub : Option String) (exp : Nat) : String :=
  key ++ "." ++ (match sub with | some s => "S" ++ s | none => "N") ++ "." ++ toString exp

/-- Model of `jose.jwt.encode(payload, key, HS256)`. -/
def jwtEncode (key : String) (sub : Option String) (exp : Nat) : JwtToken :=
  ⟨sub, exp, mkSig key sub exp⟩

/-- Model of `jose.jwt.decode(token, key, [HS256])` at clock time
`now`: `none` stands for a raised `JWTError` (bad signature, or
`ExpiredSignatureError` when the `exp` claim is not in the future),
`some payloadSub` for a successful decode returning the payload. -/
def jwtDecodeVerify (key : String) (now : Nat) (t : JwtToken) : Option (Option String) :=
  if t.sig = mkSig key t.sub t.exp then
    if t.exp ≤ now then none
    else some t.sub
  else none

/-- `create_token` from `auth.py`: subject plus a 7-day expiry from the
current time `now` (`datetime.utcnow()`), signed with `SECRET_KEY`. -/
def create_token (now : Nat) (username : String) : JwtToken :=
  jwtEncode SECRET_KEY (some username) (now + ACCESS_TOKEN_EXPIRE_DAYS * SECONDS_PER_DAY)

/-- `decode_token` from `auth.py`: `payload.get("sub")` on success,
`None` on any `JWTError` (the `try/except` swallows the exception, so
the function is total). -/
def decode_token (now : Nat) (t : JwtToken) : Option String :=
  match jwtDecodeVerify SECRET_KEY now t with
  | some payloadSub => payloadSub
  | none => none

/-- A Python value reaching `hash_password`: a `str`, or anything
else (the dynamic type check `isinstance(password, str)`). -/
inductive PyValue where
  | str (s : String)
  | nonStr
  deriving DecidableEq, Repr

/-- The two rejection channels of `hash_password`: the `ValueError` it
raises on non-string input and the `HTTPException(status, detail)` it
raises on over-long passwords. -/
inductive AuthErr where
  | valueError (msg : String)
  | httpException (status : Nat) (detail : String)
  deriving DecidableEq, Repr

/-- Model of `passlib`'s `pwd_context.hash` (bcrypt): a salted digest,
abstracted as an injective tagging of salt and password.  Only the fact
that an accepted password reaches this function matters here. -/
def pwdContextHash (salt password : String) : String :=
  "$2b$12$" ++ salt ++ "$" ++ password

/-- `hash_password` from `auth.py`: rejects non-strings with a
`ValueError`, rejects passwords of UTF-8 byte length over 72 with an
`HTTPException(400)` before any hashing, and otherwise hashes. -/
def hash_password (salt : String) (password : PyValue) : Except AuthErr String :=
  match password with
  | .nonStr => .error (.valueError "Password must be string")
  | .str s =>
    if 72 < pyUtf8Len s then .error (.httpException 400 "Password too long")
    else .ok (pwdContextHash salt s)

/-- The password rule of the `UserRegister` schema in `models.py`:
pydantic `min_length`/`max_length` count characters (code points). -/
def userRegisterPasswordOk (s : String) : Bool :=
  6 ≤ s.length && s.length ≤ 72

/- ## main.py : authentication resolution -/

/-- The `Authorization` header as the code inspects it:
`auth.startswith("Bearer ")` either holds — and `auth[7:]` is a token
string, represented by the `JwtToken` it parses to — or it does not
(any other non-empty header, and the falsy empty header). -/
inductive AuthHeader where
  | bearer (t : JwtToken)
  | nonBearer
  deriving DecidableEq, Repr

/-- The parts of a request that `get_current_user` reads: the
`Authorization` header and the `sage_token` cookie (an absent or falsy
cookie is `none`). -/
structure PyRequest where
  authorization : Option AuthHeader
  sageToken : Option JwtToken
  deriving DecidableEq, Repr

/-- `get_current_user` from `main.py`: a `Bearer` header is decoded and
returned immediately; otherwise the cookie is tried; otherwise `None`. -/
def get_current_user (now : Nat) (req : PyRequest) : Option String :=
  match req.authorization with
  | some (.bearer t) => decode_token now t
  | some .nonBearer =>
    match req.sageToken with
    | some t => decode_token now t
    | none => none
  | none =>
    match req.sageToken with
    | some t => decode_token now t
    | none => none

/-- `require_auth` from `main.py`: `401` when `get_current_user` gives
no user (Python `if not user:` also rejects the falsy empty string). -/
def require_auth (now : Nat) (req : PyRequest) : Except Nat String :=
  match get_current_user now req with
  | some u => if u.isEmpty then .error 401 else .ok u
  | none => .error 401

/- ## main.py : the SQLite store and the two history-bearing endpoints -/

/-- A row of the `users` table (the columns the modelled endpoints
read; `email`, `password_hash` and `created_at` are never consulted by
`chat` or `get_session_messages`). -/
structure UserRow where
  id : Nat
  username : String
  deriving DecidableEq, Repr

/-- A row of the `chat_sessions` table. -/
structure SessionRow where
  id : Nat
  user_id : Nat
  deriving DecidableEq, Repr

/-- A row of the `messages` table.  `created_at` ordering is modelled
by list order: rows are appended in insertion order. -/
structure MessageRow where
  id : Nat
  session_id : Nat
  role : String
  content : String
  deriving DecidableEq, Repr

/-- The SQLite store: the three tables plus the `AUTOINCREMENT`
counters for the two tables the modelled endpoints insert into. -/
structure DbState where
  users : List UserRow
  sessions : List SessionRow
  messages : List MessageRow
  nextSessionId : Nat
  nextMessageId : Nat
  deriving DecidableEq, Repr

/-- Store sanity invariant maintained by `AUTOINCREMENT`: every id is
below its table's counter, and message rows reference already-issued
session ids. -/
def DbState.WF (db : DbState) : Prop :=
  (∀ s ∈ db.sessions, s.id < db.nextSessionId) ∧
  (∀ m ∈ db.messages, m.id < db.nextMessageId) ∧
  (∀ m ∈ db.messages, m.session_id < db.nextSessionId)

/-- `SELECT id FROM users WHERE username = ?` with `fetchone()`: the
first matching row, if any. -/
def findUserByUsername (db : DbState) (username : String) : Option UserRow :=
  db.users.find? (fun u => u.username == username)

/-- The persistence block of the `chat` endpoint in `main.py`: look the
user up; when found, insert one `chat_sessions` row and two `messages`
rows (user message, then assistant response) under the fresh session
id; when the username has no row, insert nothing. -/
def chatPersist (db : DbState) (username userMsg resp : String) : DbState :=
  match findUserByUsername db username with
  | none => db
  | some u =>
    let sid := db.nextSessionId
    { db with
      sessions := db.sessions ++ [⟨sid, u.id⟩],
      messages := db.messages ++
        [⟨db.nextMessageId, sid, "user", userMsg⟩,
         ⟨db.nextMessageId + 1, sid, "assistant", resp⟩],
      nextSessionId := sid + 1,
      nextMessageId := db.nextMessageId + 2 }

/-- The `chat` endpoint of `main.py`: authenticate, compute the
response (provider outcome and random draws passed through), persist,
and return the response body with the updated store. -/
def chatEndpoint (now : Nat) (req : PyRequest) (ai : Option String) (r : FallbackRand)
    (db : DbState) (msg : String) : Except Nat ((String × List String) × DbState) :=
  match require_auth now req with
  | .error c => .error c
  | .ok username =>
    let out := get_chat_response ai r msg
    .ok (out, chatPersist db username msg out.1)

/-- The three-table join of `get_session_messages` in `main.py`:
`messages ⋈ chat_sessions ⋈ users` filtered by `s.id = ? AND
u.username = ?`, projected to `(role, content)`, in `created_at`
(i.e. insertion) order. -/
def sessionMessagesQuery (db : DbState) (sid : Nat) (username : String) :
    List (String × String) :=
  (db.messages.filter (fun m =>
    m.session_id == sid &&
    db.sessions.any (fun s =>
      s.id == m.session_id &&
      db.users.any (fun u => u.id == s.user_id && u.username == username)))).map
    (fun m => (m.role, m.content))

/-- The `/api/history/{session_id}` endpoint of `main.py`: authenticate,
run the join, `404` when it returns no rows; the handler runs no write
statement, so the store is returned unchanged. -/
def getSessionMessagesEndpoint (now : Nat) (req : PyRequest) (db : DbState) (sid : Nat) :
    Except Nat (List (String × String)) × DbState :=
  match require_auth now req with
  | .error c => (.error c, db)
  | .ok username =>
    let rows := sessionMessagesQuery db sid username
    (if rows.isEmpty then .error 404 else .ok rows, db)

/- ## Concrete fixtures used by the witness theorems -/

/-- A password of 40 two-byte characters: 40 code points (accepted by
the `UserRegister` schema, which counts characters) but 80 UTF-8 bytes
(rejected by `hash_password`). -/
def longPw : String := String.mk (List.replicate 40 '¢')

/-- A request authenticated as `alice` by a freshly issued bearer
token. -/
def wReq : PyRequest := ⟨some (.bearer (create_token 0 "alice")), none⟩

/-- A store with user `alice`, one earlier session and message. -/
def wDb : DbState :=
  ⟨[⟨1, "alice"⟩], [⟨3, 1⟩], [⟨7, 3, "user", "previous"⟩], 10, 20⟩

/-- The outcome the `chat` endpoint produces on `wDb` for `alice`
saying `"hello"` with no provider configured. -/
def wOut : (String × List String) × DbState :=
  (get_chat_response none ⟨0, false, 0⟩ "hello",
   chatPersist wDb "alice" "hello" (get_chat_response none ⟨0, false, 0⟩ "hello").1)

/-- A store with users `alice` and `bob` where session `5` belongs to
`bob` and holds one message. -/
def wDb8 : DbState :=
  ⟨[⟨1, "alice"⟩, ⟨2, "bob"⟩], [⟨5, 2⟩], [⟨9, 5, "user", "secret"⟩], 6, 10⟩


/- ## Helper lemmas -/

/-- The element `random.choice` picks (index reduced modulo the pool
size) is a member of the pool. -/
theorem getD_mod_mem {α : Type} (l : List α) (i : Nat) (d : α) (h : l ≠ []) :
    l.getD (i % l.length) d ∈ l := by
  have hl : 0 < l.length := List.length_pos.mpr h
  have hm : i % l.length < l.length := Nat.mod_lt _ hl
  rw [List.getD_eq_getElem?_getD, List.getElem?_eq_getElem hm]
  exact List.getElem_mem hm

/-- Every suggestion triad of `_fallback_response` has three entries,
whatever string the topic is. -/
theorem suggestions_triad_len (t : String) :
    (dictGet SUGGESTIONS_MAP t ["Tell me more", "I need resources", "Crisis support"]).length = 3 := by
  unfold SUGGESTIONS_MAP
  simp only [dictGet]
  repeat' split
  all_goals rfl

/-- Every response pool lookup of `_fallback_response` is non-empty,
whatever string the topic is. -/
theorem response_pool_ne_nil (t : String) :
    dictGet EMPATHETIC_RESPONSES t GENERAL_POOL ≠ [] := by
  unfold EMPATHETIC_RESPONSES
  simp only [dictGet]
  repeat' split
  all_goals
    simp [DEPRESSION_POOL, ANXIETY_POOL, STRESS_POOL, LONELINESS_POOL,
      SLEEP_POOL, ANGER_POOL, GENERAL_POOL]

/-- The suggestion list of `_fallback_response` has three entries. -/
theorem fallback_suggestions_len (r : FallbackRand) (message : String) :
    (fallback_response r message).2.length = 3 := by
  unfold fallback_response
  exact suggestions_triad_len _

/- ## Claim theorems -/

/-- Claim C1: whenever the lower-cased message contains one of the
fixed crisis phrases as a substring, `get_chat_response` returns the
fixed crisis message with the three fixed helpline-oriented
suggestions, for every provider outcome and every random draw — the
provider attempt and the fallback synthesis are bypassed. -/
theorem claim_C1_crisis_bypass (message : String) (ai : Option String) (r : FallbackRand)
    (h : ∃ kw ∈ CRISIS_KEYWORDS, strContains (pyLower message) kw = true) :
    get_chat_response ai r message =
      (CRISIS_MESSAGE,
       ["Call Tele-MANAS 14416", "Call KIRAN 1800-599-0019",
        "Reach out to someone you trust"]) := by
  have hc : is_crisis message = true := by
    unfold is_crisis kwAny
    rw [List.any_eq_true]
    obtain ⟨kw, hmem, hkw⟩ := h
    exact ⟨kw, hmem, hkw⟩
  unfold get_chat_response
  rw [if_pos hc]

/-- Witness for C1: the message "I want to kill myself" at a concrete
provider outcome and concrete random draws. -/
theorem claim_C1_crisis_bypass_witness :
    (∃ kw ∈ CRISIS_KEYWORDS, strContains (pyLower "I want to kill myself") kw = true) ∧
    get_chat_response (some "provider text") ⟨0, true, 0⟩ "I want to kill myself" =
      (CRISIS_MESSAGE,
       ["Call Tele-MANAS 14416", "Call KIRAN 1800-599-0019",
        "Reach out to someone you trust"]) :=
  ⟨⟨"kill myself", by decide, by decide⟩,
   claim_C1_crisis_bypass "I want to kill myself" (some "provider text") ⟨0, true, 0⟩
     ⟨"kill myself", by decide, by decide⟩⟩

/-- Claim C10: for every message, provider outcome and random draws,
`get_chat_response` returns exactly three suggestions. -/
theorem claim_C10_three_suggestions (message : String) (ai : Option String) (r : FallbackRand) :
    (get_chat_response ai r message).2.length = 3 := by
  unfold get_chat_response
  split
  · rfl
  · match ai with
    | none => exact fallback_suggestions_len r message
    | some s =>
      by_cases hs : s.isEmpty
      · simp only [hs, if_pos]
        exact fallback_suggestions_len r message
      · simp only [hs, if_neg, Bool.false_eq_true, not_false_iff]
        rfl

/-- Claim C3: a freshly issued token decodes to its username at any
time before the 7-day expiry, a token whose signature is not the
HMAC of its own payload decodes to `none`, and an expired token
decodes to `none`; `decode_token` is a total function into `Option`
(the `except JWTError` handler), so it never raises. -/
theorem claim_C3_token_roundtrip :
    (∀ (u : String) (issued now : Nat),
      now < issued + ACCESS_TOKEN_EXPIRE_DAYS * SECONDS_PER_DAY →
      decode_token now (create_token issued u) = some u) ∧
    (∀ (t : JwtToken) (now : Nat), t.sig ≠ mkSig SECRET_KEY t.sub t.exp →
      decode_token now t = none) ∧
    (∀ (t : JwtToken) (now : Nat), t.exp ≤ now → decode_token now t = none) := by
  refine ⟨?_, ?_, ?_⟩
  · intro u issued now h
    unfold decode_token jwtDecodeVerify create_token jwtEncode
    rw [if_pos rfl, if_neg (by simpa using Nat.not_le.mpr h)]
  · intro t now h
    unfold decode_token jwtDecodeVerify
    rw [if_neg h]
  · intro t now h
    unfold decode_token jwtDecodeVerify
    by_cases hs : t.sig = mkSig SECRET_KEY t.sub t.exp
    · rw [if_pos hs, if_pos h]
    · rw [if_neg hs]

/-- Witness for C3: a token for "alice" decodes to "alice" an hour
after issue, a tampered signature decodes to `none`, and the same
token decodes to `none` exactly at its expiry. -/
theorem claim_C3_token_roundtrip_witness :
    decode_token 3600 (create_token 0 "alice") = some "alice" ∧
    decode_token 0 ⟨some "alice", 604800, "tampered"⟩ = none ∧
    decode_token 604800 (create_token 0 "alice") = none :=
  ⟨claim_C3_token_roundtrip.1 "alice" 0 3600 (by decide),
   claim_C3_token_roundtrip.2.1 ⟨some "alice", 604800, "tampered"⟩ 0 (by decide),
   claim_C3_token_roundtrip.2.2 (create_token 0 "alice") 604800 (by decide)⟩

/-- Claim C9: a request whose `Authorization` header starts with
"Bearer " is resolved from that header alone — the cookie is never
consulted — so an invalid bearer token yields no user and a `401` on
protected routes even when a valid `sage_token` cookie is present. -/
theorem claim_C9_bearer_priority (now : Nat) (t : JwtToken) (c : Option JwtToken) :
    get_current_user now ⟨some (.bearer t), c⟩ = decode_token now t ∧
    (decode_token now t = none →
      require_auth now ⟨some (.bearer t), c⟩ = .error 401) := by
  constructor
  · rfl
  · intro h
    unfold require_auth
    have hg : get_current_user now ⟨some (.bearer t), c⟩ = none := h
    rw [hg]

/-- Witness for C9: a tampered bearer token together with a valid
cookie for "bob": the request resolves to no user and is rejected. -/
theorem claim_C9_bearer_priority_witness :
    decode_token 5 ⟨some "alice", 604800, "bad"⟩ = none ∧
    decode_token 5 (create_token 0 "bob") = some "bob" ∧
    require_auth 5
      ⟨some (.bearer ⟨some "alice", 604800, "bad"⟩), some (create_token 0 "bob")⟩ =
      .error 401 :=
  ⟨by decide, by decide,
   (claim_C9_bearer_priority 5 ⟨some "alice", 604800, "bad"⟩
     (some (create_token 0 "bob"))).2 (by decide)⟩

/-- Claim C4: topic classification agrees with the spec's ordered
first-match table over the seven fixed topics; a message containing
"tired" matches the stress list before the sleep list is reached. -/
theorem claim_C4_topic_classification (message : String) :
    detect_topic message = detect_topic_spec message ∧
    detect_topic message ∈
      ["depression", "anxiety", "stress", "loneliness", "sleep", "anger", "general"] ∧
    (strContains (pyLower message) "tired" = true →
      detect_topic message ≠ "sleep" ∧
      detect_topic message ∈ ["depression", "anxiety", "stress"]) := by
  refine ⟨rfl, ?_, ?_⟩
  · simp only [detect_topic]
    repeat' split
    all_goals decide
  · intro h
    have hstress :
        kwAny (pyLower message)
          ["stress", "stressed", "overwhelm", "pressure", "busy", "tired"] = true := by
      unfold kwAny
      rw [List.any_eq_true]
      exact ⟨"tired", by decide, h⟩
    simp only [detect_topic]
    by_cases h1 : kwAny (pyLower message)
        ["depress", "sad", "hopeless", "empty", "worthless", "down", "low"] = true
    · rw [if_pos h1]; exact ⟨by decide, by decide⟩
    · rw [if_neg h1]
      by_cases h2 : kwAny (pyLower message)
          ["anxious", "anxiety", "panic", "worry", "worried", "nervous", "scared"] = true
      · rw [if_pos h2]; exact ⟨by decide, by decide⟩
      · rw [if_neg h2, if_pos hstress]; exact ⟨by decide, by decide⟩

/-- Witness for C4: the message "I am so tired" contains "tired" and is
classified as stress. -/
theorem claim_C4_topic_classification_witness :
    strContains (pyLower "I am so tired") "tired" = true ∧
    detect_topic "I am so tired" = "stress" ∧
    detect_topic "I am so tired" ≠ "sleep" :=
  ⟨by decide, by decide,
   ((claim_C4_topic_classification "I am so tired").2.2 (by decide)).1⟩

/-- When the reflection is unavailable or the coin comes up tails, the
fallback response is exactly the drawn pool template. -/
theorem fallback_response_base (r : FallbackRand) (message : String)
    (h : short_reflection message = none ∨ r.reflectCoin = false) :
    (fallback_response r message).1 =
      (dictGet EMPATHETIC_RESPONSES (detect_topic message) GENERAL_POOL).getD
        (r.respIdx %
          (dictGet EMPATHETIC_RESPONSES (detect_topic message) GENERAL_POOL).length) "" := by
  simp only [fallback_response]
  rcases h with h | h
  · rw [h]
  · cases hs : short_reflection message with
    | none => rfl
    | some refl0 => simp [hs, h]

/-- Claim C5: the reflective wrapper is never prepended when the
stripped message is shorter than 10 characters, when the first clause
yields fewer than 2 words, or when the 50% coin comes up tails: in all
these cases the fallback response is exactly a template of the topic's
pool. -/
theorem claim_C5_reflection_gating (message : String) (r : FallbackRand)
    (h : (pyStrip message).length < 10 ∨
         ((pyWords (pyStrip (firstClause (pyStrip message)))).take 8).length < 2 ∨
         r.reflectCoin = false) :
    (fallback_response r message).1 ∈
      dictGet EMPATHETIC_RESPONSES (detect_topic message) GENERAL_POOL := by
  have key : short_reflection message = none ∨ r.reflectCoin = false →
      (fallback_response r message).1 ∈
        dictGet EMPATHETIC_RESPONSES (detect_topic message) GENERAL_POOL := by
    intro hx
    rw [fallback_response_base r message hx]
    exact getD_mod_mem _ _ _ (response_pool_ne_nil _)
  rcases h with h | h | h
  · apply key; left
    simp only [short_reflection]
    rw [if_pos h]
  · apply key; left
    simp only [short_reflection]
    by_cases h1 : (pyStrip message).length < 10
    · rw [if_pos h1]
    · rw [if_neg h1, if_pos h]
  · exact key (Or.inr h)

/-- Witness for C5: the message "hi" strips to fewer than 10
characters, so even with the coin heads the response is a plain
template. -/
theorem claim_C5_reflection_gating_witness :
    (pyStrip "hi").length < 10 ∧
    (fallback_response ⟨2, true, 1⟩ "hi").1 ∈
      dictGet EMPATHETIC_RESPONSES (detect_topic "hi") GENERAL_POOL :=
  ⟨by decide, claim_C5_reflection_gating "hi" ⟨2, true, 1⟩ (Or.inl (by decide))⟩

/-- Claim C6: `hash_password` rejects non-string input with a
`ValueError`, rejects any password of UTF-8 byte length over 72 with a
client error before hashing, hashes every accepted password with the
salted one-way hash, and `longPw` is a password the registration
schema accepts (72 or fewer characters) that is still rejected. -/
theorem claim_C6_password_hashing (salt : String) :
    hash_password salt .nonStr = .error (.valueError "Password must be string") ∧
    (∀ s : String, 72 < pyUtf8Len s →
      hash_password salt (.str s) = .error (.httpException 400 "Password too long")) ∧
    (∀ s : String, pyUtf8Len s ≤ 72 →
      hash_password salt (.str s) = .ok (pwdContextHash salt s)) ∧
    userRegisterPasswordOk longPw = true ∧
    hash_password salt (.str longPw) = .error (.httpException 400 "Password too long") := by
  refine ⟨rfl, ?_, ?_, by decide, ?_⟩
  · intro s h
    simp only [hash_password]
    rw [if_pos h]
  · intro s h
    simp only [hash_password]
    rw [if_neg (Nat.not_lt.mpr h)]
  · simp only [hash_password]
    rw [if_pos (by decide)]

/-- Witness for C6: the 40-character, 80-byte password is rejected and
an ordinary ASCII password is hashed. -/
theorem claim_C6_password_hashing_witness :
    (72 < pyUtf8Len longPw ∧
     hash_password "salt0" (.str longPw) = .error (.httpException 400 "Password too long")) ∧
    (pyUtf8Len "hunter22" ≤ 72 ∧
     hash_password "salt0" (.str "hunter22") = .ok (pwdContextHash "salt0" "hunter22")) :=
  ⟨⟨by decide, (claim_C6_password_hashing "salt0").2.1 longPw (by decide)⟩,
   ⟨by decide, (claim_C6_password_hashing "salt0").2.2.1 "hunter22" (by decide)⟩⟩

/-- Counterexample to Claim C2 as stated: with no provider configured,
the message "I feel so anxious today" is long enough for a reflection,
so at the random outcome that applies the reflective wrapper the
returned response is not an element of the anxiety template pool. -/
theorem claim_C2_counterexample :
    ¬ (get_chat_response none ⟨0, true, 0⟩ "I feel so anxious today").1 ∈ ANXIETY_POOL := by
  decide

/-- Claim C2 as amended: with no provider configured, for every outcome
of the random draws the message "I feel so anxious today" yields a
response that is an anxiety-pool template, possibly preceded by one of
the reflective wrappers applied to the lower-cased first clause, and
the suggestion list is exactly the three anxiety-specific
suggestions. -/
theorem claim_C2_amended_anxiety (r : FallbackRand) :
    ∃ base ∈ ANXIETY_POOL,
      ((get_chat_response none r "I feel so anxious today").1 = base ∨
        ∃ w ∈ REFLECTION_WRAPPERS,
          (get_chat_response none r "I feel so anxious today").1 =
            w.1 ++ "i feel so anxious today" ++ w.2 ++ base) ∧
      (get_chat_response none r "I feel so anxious today").2 =
        ["Breathing exercises", "Grounding techniques", "When to see a professional"] := by
  have hcr : is_crisis "I feel so anxious today" = false := by decide
  have ht : detect_topic "I feel so anxious today" = "anxiety" := by decide
  have hsr : short_reflection "I feel so anxious today" = some "i feel so anxious today" := by
    decide
  have hgc : get_chat_response none r "I feel so anxious today" =
      fallback_response r "I feel so anxious today" := by
    simp [get_chat_response, hcr]
  rw [hgc]
  simp only [fallback_response, ht, hsr]
  have hpool : dictGet EMPATHETIC_RESPONSES "anxiety" GENERAL_POOL = ANXIETY_POOL := rfl
  rw [hpool]
  cases hc : r.reflectCoin with
  | false =>
    refine ⟨ANXIETY_POOL.getD (r.respIdx % ANXIETY_POOL.length) "",
      getD_mod_mem _ _ _ (by simp [ANXIETY_POOL]), Or.inl ?_, rfl⟩
    simp
  | true =>
    refine ⟨ANXIETY_POOL.getD (r.respIdx % ANXIETY_POOL.length) "",
      getD_mod_mem _ _ _ (by simp [ANXIETY_POOL]), Or.inr ?_, rfl⟩
    refine ⟨REFLECTION_WRAPPERS.getD (r.prefIdx % REFLECTION_WRAPPERS.length) ("", ""),
      getD_mod_mem _ _ _ (by simp [REFLECTION_WRAPPERS]), ?_⟩
    simp [(by decide : "i feel so anxious today".isEmpty = false)]

/-- Claim C7: a successful authenticated chat turn whose username has a
user row appends exactly one session row for that user under a fresh
session id, appends exactly the two message rows (user message first,
assistant response second) under that fresh id, and changes nothing
else: the user table is untouched and all earlier rows are preserved. -/
theorem claim_C7_chat_turn_rows
    (now : Nat) (req : PyRequest) (ai : Option String) (r : FallbackRand)
    (db : DbState) (msg username : String) (u : UserRow)
    (out : (String × List String) × DbState)
    (hwf : db.WF)
    (hauth : require_auth now req = .ok username)
    (huser : findUserByUsername db username = some u)
    (hrun : chatEndpoint now req ai r db msg = .ok out) :
    out.2.users = db.users ∧
    out.2.sessions = db.sessions ++ [⟨db.nextSessionId, u.id⟩] ∧
    (∀ s ∈ db.sessions, s.id ≠ db.nextSessionId) ∧
    out.2.messages = db.messages ++
      [⟨db.nextMessageId, db.nextSessionId, "user", msg⟩,
       ⟨db.nextMessageId + 1, db.nextSessionId, "assistant", (get_chat_response ai r msg).1⟩] ∧
    out.2.messages.filter (fun m => m.session_id == db.nextSessionId) =
      [⟨db.nextMessageId, db.nextSessionId, "user", msg⟩,
       ⟨db.nextMessageId + 1, db.nextSessionId, "assistant", (get_chat_response ai r msg).1⟩] := by
  obtain ⟨hwf1, hwf2, hwf3⟩ := hwf
  simp only [chatEndpoint, hauth, Except.ok.injEq] at hrun
  have hcp : chatPersist db username msg (get_chat_response ai r msg).1 =
      { db with
        sessions := db.sessions ++ [⟨db.nextSessionId, u.id⟩],
        messages := db.messages ++
          [⟨db.nextMessageId, db.nextSessionId, "user", msg⟩,
           ⟨db.nextMessageId + 1, db.nextSessionId, "assistant",
             (get_chat_response ai r msg).1⟩],
        nextSessionId := db.nextSessionId + 1,
        nextMessageId := db.nextMessageId + 2 } := by
    simp only [chatPersist, huser]
  have hout2 : out.2 = chatPersist db username msg (get_chat_response ai r msg).1 := by
    rw [← hrun]
  rw [hout2, hcp]
  refine ⟨rfl, rfl, ?_, rfl, ?_⟩
  · intro s hs
    exact Nat.ne_of_lt (hwf1 s hs)
  · rw [List.filter_append]
    have hold : db.messages.filter (fun m => m.session_id == db.nextSessionId) = [] := by
      rw [List.filter_eq_nil_iff]
      intro m hm
      simp [Nat.ne_of_lt (hwf3 m hm)]
    rw [hold]
    simp

/-- Witness for C7: `alice` chats "hello" on the store `wDb`; the run
appends session `10` for user `1` and the two message rows `20`, `21`
under session `10`, leaving everything else unchanged. -/
theorem claim_C7_chat_turn_rows_witness :
    wDb.WF ∧
    require_auth 0 wReq = .ok "alice" ∧
    findUserByUsername wDb "alice" = some ⟨1, "alice"⟩ ∧
    chatEndpoint 0 wReq none ⟨0, false, 0⟩ wDb "hello" = .ok wOut ∧
    (wOut.2.users = wDb.users ∧
     wOut.2.sessions = wDb.sessions ++ [⟨wDb.nextSessionId, 1⟩] ∧
     (∀ s ∈ wDb.sessions, s.id ≠ wDb.nextSessionId) ∧
     wOut.2.messages = wDb.messages ++
       [⟨wDb.nextMessageId, wDb.nextSessionId, "user", "hello"⟩,
        ⟨wDb.nextMessageId + 1, wDb.nextSessionId, "assistant",
          (get_chat_response none ⟨0, false, 0⟩ "hello").1⟩] ∧
     wOut.2.messages.filter (fun m => m.session_id == wDb.nextSessionId) =
       [⟨wDb.nextMessageId, wDb.nextSessionId, "user", "hello"⟩,
        ⟨wDb.nextMessageId + 1, wDb.nextSessionId, "assistant",
          (get_chat_response none ⟨0, false, 0⟩ "hello").1⟩]) :=
  ⟨by refine ⟨?_, ?_, ?_⟩ <;> decide, by rfl, by rfl, by rfl,
   claim_C7_chat_turn_rows 0 wReq none ⟨0, false, 0⟩ wDb "hello" "alice" ⟨1, "alice"⟩ wOut
     (by refine ⟨?_, ?_, ?_⟩ <;> decide) (by rfl) (by rfl) (by rfl)⟩

/-- Claim C8: fetching a session's messages never writes to the store;
every returned row stems from a message of a session with the
requested id owned by a user row carrying the requester's username;
and when every user row owning a session with that id carries a
different username, the endpoint answers `404`. -/
theorem claim_C8_history_ownership
    (now : Nat) (req : PyRequest) (db : DbState) (sid : Nat) (username : String)
    (hauth : require_auth now req = .ok username) :
    (getSessionMessagesEndpoint now req db sid).2 = db ∧
    (∀ rows, (getSessionMessagesEndpoint now req db sid).1 = .ok rows →
      ∀ p ∈ rows, ∃ m ∈ db.messages,
        p = (m.role, m.content) ∧ m.session_id = sid ∧
        ∃ s ∈ db.sessions, s.id = sid ∧
          ∃ u ∈ db.users, u.id = s.user_id ∧ u.username = username) ∧
    ((∀ s ∈ db.sessions, s.id = sid →
        ∀ u ∈ db.users, u.id = s.user_id → u.username ≠ username) →
      (getSessionMessagesEndpoint now req db sid).1 = .error 404) := by
  refine ⟨?_, ?_, ?_⟩
  · simp only [getSessionMessagesEndpoint, hauth]
  · intro rows hrows
    simp only [getSessionMessagesEndpoint, hauth] at hrows
    by_cases he : (sessionMessagesQuery db sid username).isEmpty
    · rw [if_pos he] at hrows
      exact absurd hrows (by simp)
    · rw [if_neg he] at hrows
      have hq : rows = sessionMessagesQuery db sid username := by
        cases hrows
        rfl
      subst hq
      intro p hp
      simp only [sessionMessagesQuery, List.mem_map, List.mem_filter,
        Bool.and_eq_true, List.any_eq_true, beq_iff_eq] at hp
      obtain ⟨m, ⟨hm, hside, s, hs, hsid, u, hu, huid, huser⟩, hpm⟩ := hp
      exact ⟨m, hm, hpm.symm, hside, s, hs, hsid.trans hside, u, hu, huid, huser⟩
  · intro hother
    simp only [getSessionMessagesEndpoint, hauth]
    have hq : sessionMessagesQuery db sid username = [] := by
      simp only [sessionMessagesQuery]
      rw [List.map_eq_nil_iff, List.filter_eq_nil_iff]
      intro m hm
      simp only [Bool.and_eq_true, List.any_eq_true, beq_iff_eq, not_and]
      intro hside
      rintro ⟨s, hs, hsid, u, hu, huid, huser⟩
      exact hother s hs (hsid.trans hside) u hu huid huser
    rw [hq]
    simp

/-- Witness for C8: `alice` requests session `5`, which belongs to
`bob` on the store `wDb8`; the endpoint answers `404`. -/
theorem claim_C8_history_ownership_witness :
    require_auth 0 wReq = .ok "alice" ∧
    (∀ s ∈ wDb8.sessions, s.id = 5 →
      ∀ u ∈ wDb8.users, u.id = s.user_id → u.username ≠ "alice") ∧
    (getSessionMessagesEndpoint 0 wReq wDb8 5).1 = .error 404 :=
  ⟨by rfl, by decide,
   (claim_C8_history_ownership 0 wReq wDb8 5 "alice" (by rfl)).2.2 (by decide)⟩
